import Mathlib

/-!
Verification of the Command-to-Job Bridge of `discord_bot.py`
(daily_stock_analysis). The handlers `stock_analyze`, `market_review`,
`help_command` and `about_command` are embedded as pure functions that
thread an explicit world (an allocator plus a heap of configuration
objects) and emit a trace of observable actions: deferred
acknowledgments, collaborator invocations, follow-up sends and direct
message sends. Collaborator behaviour (`run_full_analysis`,
`run_market_review`, which live in the repository's `main` module) is a
parameter: an `Except` value that either returns a Python value or
raises a Python exception, mirroring how the handlers only observe the
call's outcome.
-/

/-- A Python runtime value, as far as the bridge observes one: the
handlers only ever test truthiness of a collaborator result. -/
inductive PyValue where
  | pynone : PyValue
  | pybool : Bool → PyValue
  | pystr : String → PyValue
  | pyint : Int → PyValue
deriving DecidableEq

/-- Python truthiness, used by `market_review`'s `if review_result:`. -/
def truthy : PyValue → Bool
  | PyValue.pynone => false
  | PyValue.pybool b => b
  | PyValue.pystr s => s ≠ ""
  | PyValue.pyint i => i ≠ 0

/-- A Python exception as the handlers distinguish them: `stock_analyze`
has `except ValueError as e` before `except Exception as e`, so the model
splits the `Exception` hierarchy into `ValueError` and everything else. -/
inductive PyExc where
  | valueError (msg : String) : PyExc
  | otherError (msg : String) : PyExc
deriving DecidableEq

/-- `str(e)`: the message text of the exception. -/
def pyExcMsg : PyExc → String
  | PyExc.valueError m => m
  | PyExc.otherError m => m

/-- The `argparse.Namespace` literal built by `stock_analyze`
(discord_bot.py lines 104-116), field for field. -/
structure ArgsNamespace where
  debug : Bool
  dry_run : Bool
  no_notify : Bool
  single_notify : Bool
  workers : Option Nat
  schedule : Bool
  market_review : Bool
  no_market_review : Bool
  webui : Bool
  webui_only : Bool
  stocks : Option (List String)
deriving DecidableEq

/-- Modelled from the spec: the `Config` class lives in the repository's
`config` module, which is not under src/; the spec describes a Job
Configuration Snapshot as "a deep, independently-mutable copy of global
configuration", so a configuration object is a mutable bag of named
settings. -/
structure ConfigObj where
  settings : List (String × PyValue)
deriving DecidableEq

/-- A freshly constructed `Config()` instance (default settings). -/
def freshConfig : ConfigObj := { settings := [] }

/-- The world threaded through handler runs: an allocation counter and a
heap of configuration objects addressed by id. Object identity (Python
`id()`) is the heap address; `asyncio.to_thread` handoffs interleave, but
each `Config()` construction atomically takes the next fresh address. -/
structure World where
  nextId : Nat
  heap : List (Nat × ConfigObj)
deriving DecidableEq

/-- The world at module load: `config = get_config()` has produced the
process-wide default configuration at address 0. -/
def initWorld : World := { nextId := 1, heap := [(0, freshConfig)] }

/-- `Config()`: allocate a fresh configuration object at a fresh address. -/
def allocConfig (w : World) : Nat × World :=
  (w.nextId, { nextId := w.nextId + 1, heap := (w.nextId, freshConfig) :: w.heap })

/-- `NotificationService()`: allocate a fresh notifier object; only its
identity matters to the bridge, so it is not stored in the config heap. -/
def allocNotifier (w : World) : Nat × World :=
  (w.nextId, { w with nextId := w.nextId + 1 })

/-- Read the configuration object at an address. -/
def lookupConfig (w : World) (i : Nat) : Option ConfigObj :=
  w.heap.lookup i

/-- `setattr` on a configuration object: the new binding shadows any
older one. -/
def setFieldObj (c : ConfigObj) (k : String) (v : PyValue) : ConfigObj :=
  { settings := (k, v) :: c.settings }

/-- Replace the object stored at address `i` in a heap. -/
def setHeap : List (Nat × ConfigObj) → Nat → ConfigObj → List (Nat × ConfigObj)
  | [], _, _ => []
  | (j, o) :: rest, i, c => if j = i then (j, c) :: rest else (j, o) :: setHeap rest i c

/-- Mutate one named setting of the configuration object at address `i`. -/
def setField (w : World) (i : Nat) (k : String) (v : PyValue) : World :=
  match lookupConfig w i with
  | Option.none => w
  | Option.some c => { w with heap := setHeap w.heap i (setFieldObj c k v) }

/-- The observable actions a handler performs, in order. -/
inductive Act where
  | defer (ephemeral : Bool) : Act
  | allocConfigAct (configId : Nat) : Act
  | allocNotifierAct (notifierId : Nat) : Act
  | callRunFullAnalysis (configId : Nat) (args : ArgsNamespace)
      (stock_codes : List String) : Act
  | callRunMarketReview (notifierId : Nat) (analyzer : Option Nat)
      (search_service : Option Nat) : Act
  | followupSend (text : String) (ephemeral : Bool) : Act
  | sendMessage (text : String) (ephemeral : Bool) : Act
deriving DecidableEq

/-- Is the action the deferred acknowledgment
(`interaction.response.defer`)? -/
def isDefer : Act → Bool
  | Act.defer _ => true
  | _ => false

/-- Is the action a follow-up send (`interaction.followup.send`)? -/
def isFollowup : Act → Bool
  | Act.followupSend _ _ => true
  | _ => false

/-- Is the action a direct response (`interaction.response.send_message`)? -/
def isSendMessage : Act → Bool
  | Act.sendMessage _ _ => true
  | _ => false

/-- Is the action an invocation of `run_full_analysis`? -/
def isCallRunFullAnalysis : Act → Bool
  | Act.callRunFullAnalysis _ _ _ => true
  | _ => false

/-- Is the action an invocation of either job collaborator? -/
def isExecutorCall : Act → Bool
  | Act.callRunFullAnalysis _ _ _ => true
  | Act.callRunMarketReview _ _ _ => true
  | _ => false

/-- Is the action a `Config()` construction? -/
def isAllocConfig : Act → Bool
  | Act.allocConfigAct _ => true
  | _ => false

/-- The argument namespace `stock_analyze` passes to `run_full_analysis`:
every field fixed except `no_market_review`, which is `not full_report`
(discord_bot.py line 112). -/
def stockAnalyzeArgs (full_report : Bool) : ArgsNamespace :=
  { debug := true
    dry_run := false
    no_notify := false
    single_notify := false
    workers := Option.none
    schedule := false
    market_review := false
    no_market_review := !full_report
    webui := false
    webui_only := false
    stocks := Option.none }

/-- The follow-up sent by `stock_analyze` after the collaborator call
returns or raises: the success branch, the `except ValueError` branch and
the `except Exception` branch (discord_bot.py lines 129-147). -/
def stockFollowup (stock_code : String) : Except PyExc PyValue → List Act
  | Except.ok _ =>
      [Act.followupSend ("✅ 股票分析完成！" ++ stock_code ++ " 的分析报告已生成。") false]
  | Except.error (PyExc.valueError m) =>
      [Act.followupSend ("❌ 股票代码错误：" ++ m) false]
  | Except.error (PyExc.otherError m) =>
      [Act.followupSend ("❌ 分析过程中发生错误：" ++ m) false]

/-- The `stock_analyze` slash-command handler (discord_bot.py lines
86-147): defer, build the args namespace, construct a fresh `Config()`,
invoke `run_full_analysis` with it and `[stock_code]` on a worker thread,
then send exactly one follow-up according to the outcome `runFull`. -/
def stock_analyze (w : World) (stock_code : String) (full_report : Bool)
    (runFull : Except PyExc PyValue) : List Act × World :=
  (Act.defer false ::
     Act.allocConfigAct (allocConfig w).1 ::
     Act.callRunFullAnalysis (allocConfig w).1 (stockAnalyzeArgs full_report)
       [stock_code] ::
     stockFollowup stock_code runFull,
   (allocConfig w).2)

/-- The follow-up sent by `market_review` after the collaborator call:
truthy result, falsy result, or `except Exception` (lines 177-195). -/
def reviewFollowup : Except PyExc PyValue → List Act
  | Except.ok v =>
      if truthy v then [Act.followupSend "✅ 大盘复盘完成！报告已生成。" false]
      else [Act.followupSend "❌ 大盘复盘失败！" false]
  | Except.error e =>
      [Act.followupSend ("❌ 大盘复盘过程中发生错误：" ++ pyExcMsg e) false]

/-- The `market_review` slash-command handler (discord_bot.py lines
153-195): defer, construct a fresh `NotificationService()`, invoke
`run_market_review` with it and `analyzer=None, search_service=None` on a
worker thread, then send exactly one follow-up according to the outcome. -/
def market_review (w : World) (runReview : Except PyExc PyValue) :
    List Act × World :=
  (Act.defer false ::
     Act.allocNotifierAct (allocNotifier w).1 ::
     Act.callRunMarketReview (allocNotifier w).1 Option.none Option.none ::
     reviewFollowup runReview,
   (allocNotifier w).2)

/-- The static help text sent by `help_command` (discord_bot.py lines
209-235). -/
def help_message : String :=
  "\n📊 **A股智能分析机器人帮助**\n\n### 支持的命令：\n\n1. `/stock_analyze <stock_code> [full_report]`\n   - 分析指定股票代码\n   - `stock_code`: 股票代码，如 600519\n   - `full_report`: 可选，是否生成完整报告（包含大盘）\n\n2. `/market_review`\n   - 获取大盘复盘报告\n\n3. `/help`\n   - 查看此帮助信息\n\n### 示例：\n- `/stock_analyze 600519` - 分析贵州茅台\n- `/stock_analyze 300750 true` - 生成宁德时代的完整报告\n- `/market_review` - 获取大盘复盘\n\n### 配置说明：\n机器人使用项目的.env配置文件，需要确保配置正确的API密钥和通知渠道。\n\n📈 数据来源：Tushare、Efinance\n🤖 AI分析：Gemini\n"

/-- The `help` slash-command handler (discord_bot.py lines 201-241): a
single direct `interaction.response.send_message`, no deferral, no
follow-up, no job dispatch. -/
def help_command : List Act := [Act.sendMessage help_message false]

/-- The static about text sent by `about_command` (discord_bot.py lines
255-275). -/
def about_message : String :=
  "\n🤖 **关于A股智能分析机器人**\n\n### 项目信息：\n- **名称**：A股自选股智能分析系统\n- **版本**：v1.0.0\n- **作者**：daily_stock_analysis团队\n- **GitHub**：https://github.com/ZhuLinsen/daily_stock_analysis\n\n### 功能特点：\n- ✅ 多数据源支持（Tushare、Efinance）\n- ✅ AI驱动的智能分析（Gemini）\n- ✅ 实时新闻整合\n- ✅ 多渠道通知推送\n- ✅ Discord机器人支持\n- ✅ 大盘复盘分析\n- ✅ 技术指标计算\n\n### 联系方式：\n如有问题或建议，欢迎在GitHub上提交Issue或PR。\n"

/-- The `about` slash-command handler (discord_bot.py lines 247-281): a
single direct `interaction.response.send_message`, no deferral, no
follow-up, no job dispatch. -/
def about_command : List Act := [Act.sendMessage about_message false]

/-- Modelled from the spec: the Bot Lifecycle State enum of section 3;
the transition machinery itself is implemented by the external discord.py
framework, with src/discord_bot.py supplying only the hooks (`setup_hook`
syncs commands, `on_ready` sets presence). -/
inductive BotLifecycleState where
  | connecting : BotLifecycleState
  | syncingCommands : BotLifecycleState
  | ready : BotLifecycleState
  | shuttingDown : BotLifecycleState
deriving DecidableEq

/-- Modelled from the spec: lifecycle transitions of section 4.5,
"Connecting --(session established)--> SyncingCommands --(command
registry pushed to platform)--> Ready --(process termination signal)-->
ShuttingDown". -/
def lifecycleNext : BotLifecycleState → BotLifecycleState
  | BotLifecycleState.connecting => BotLifecycleState.syncingCommands
  | BotLifecycleState.syncingCommands => BotLifecycleState.ready
  | BotLifecycleState.ready => BotLifecycleState.shuttingDown
  | BotLifecycleState.shuttingDown => BotLifecycleState.shuttingDown

deriving instance DecidableEq for Except

/-- A command invocation together with the behaviour of the collaborator
it would run. -/
inductive Command where
  | stockAnalyzeCmd (stock_code : String) (full_report : Bool)
      (runFull : Except PyExc PyValue) : Command
  | marketReviewCmd (runReview : Except PyExc PyValue) : Command
  | helpCmd : Command
  | aboutCmd : Command
deriving DecidableEq

/-- Run the registered handler for a command. -/
def runCommand (w : World) : Command → List Act × World
  | Command.stockAnalyzeCmd s f r => stock_analyze w s f r
  | Command.marketReviewCmd r => market_review w r
  | Command.helpCmd => (help_command, w)
  | Command.aboutCmd => (about_command, w)

/-- Rejection produced when a command arrives before the bridge is ready. -/
inductive DispatchError where
  | notReady : DispatchError
deriving DecidableEq

/-- Modelled from the spec: only in `Ready` does the Command Registry
accept dispatches (section 4.5). -/
def acceptsDispatch : BotLifecycleState → Bool
  | BotLifecycleState.ready => true
  | _ => false

/-- Modelled from the spec: the platform-side dispatch gate. A command
received before `Ready` is rejected with `NotReady` and runs no handler;
in `Ready` the registered handler runs. -/
def dispatch (st : BotLifecycleState) (w : World) (c : Command) :
    Except DispatchError (List Act × World) :=
  if acceptsDispatch st then Except.ok (runCommand w c)
  else Except.error DispatchError.notReady

/-- How many job-executor invocations a dispatch outcome performed: a
rejected dispatch performed none. -/
def executorCallsOf : Except DispatchError (List Act × World) → Nat
  | Except.error _ => 0
  | Except.ok (t, _) => t.countP isExecutorCall

/-- The error text `stock_analyze` reports for a collaborator exception:
the `except ValueError` branch (line 137) and the `except Exception`
branch (line 143). -/
def stockErrorText : PyExc → String
  | PyExc.valueError m => "❌ 股票代码错误：" ++ m
  | PyExc.otherError m => "❌ 分析过程中发生错误：" ++ m

/-- Updating one heap address leaves every other address unchanged. -/
theorem lookup_setHeap_ne (h : List (Nat × ConfigObj)) (i j : Nat)
    (c : ConfigObj) (hij : i ≠ j) :
    (setHeap h i c).lookup j = h.lookup j := by
  induction h with
  | nil => rfl
  | cons p rest ih =>
      obtain ⟨k, o⟩ := p
      by_cases hk : k = i
      · subst hk
        have hji : (j == k) = false := by
          simp only [beq_eq_false_iff_ne]
          exact Ne.symm hij
        simp [setHeap, List.lookup, hji]
      · have hrw : setHeap ((k, o) :: rest) i c = (k, o) :: setHeap rest i c := by
          simp [setHeap, hk]
        rw [hrw]
        by_cases hjk : j = k
        · subst hjk
          simp [List.lookup]
        · have hjkb : (j == k) = false := by
            simp only [beq_eq_false_iff_ne]
            exact hjk
          simp [List.lookup, hjkb, ih]

/-- Mutating the configuration object at one address never changes what
is read at a different address. -/
theorem lookup_setField_ne (w : World) (i j : Nat) (k : String)
    (v : PyValue) (hij : i ≠ j) :
    lookupConfig (setField w i k v) j = lookupConfig w j := by
  unfold setField
  cases hc : lookupConfig w i with
  | none => rfl
  | some c =>
      simp [lookupConfig]
      exact lookup_setHeap_ne w.heap i j (setFieldObj c k v) hij

/-- The follow-up block of `stock_analyze` contains no deferral and
exactly one follow-up send, whatever the collaborator outcome. -/
theorem stockFollowup_counts (s : String) (r : Except PyExc PyValue) :
    (stockFollowup s r).countP isDefer = 0 ∧
    (stockFollowup s r).countP isFollowup = 1 := by
  rcases r with e | v
  · cases e <;> simp [stockFollowup, isDefer, isFollowup]
  · simp [stockFollowup, isDefer, isFollowup]

/-- The follow-up block of `market_review` contains no deferral and
exactly one follow-up send, whatever the collaborator outcome. -/
theorem reviewFollowup_counts (r : Except PyExc PyValue) :
    (reviewFollowup r).countP isDefer = 0 ∧
    (reviewFollowup r).countP isFollowup = 1 := by
  rcases r with e | v
  · simp [reviewFollowup, isDefer, isFollowup]
  · cases hv : truthy v <;> simp [reviewFollowup, hv, isDefer, isFollowup]

/-- Claim C1: every `stock_analyze` invocation constructs a fresh
configuration snapshot before the job collaborator is invoked (the same
fresh address is what the call receives); two invocations racing on the
shared allocator get distinct snapshot addresses, and mutating a setting
of one snapshot changes neither the other snapshot nor the process-wide
default configuration at address 0. -/
theorem stock_analyze_snapshot_isolation
    (w : World) (s1 s2 : String) (f1 f2 : Bool) (r1 r2 : Except PyExc PyValue)
    (hw : 0 < w.nextId) :
    ∃ c1 c2 t1 t2,
      (stock_analyze w s1 f1 r1).1 =
        Act.defer false :: Act.allocConfigAct c1 ::
          Act.callRunFullAnalysis c1 (stockAnalyzeArgs f1) [s1] :: t1 ∧
      (stock_analyze (stock_analyze w s1 f1 r1).2 s2 f2 r2).1 =
        Act.defer false :: Act.allocConfigAct c2 ::
          Act.callRunFullAnalysis c2 (stockAnalyzeArgs f2) [s2] :: t2 ∧
      c1 ≠ c2 ∧ c1 ≠ 0 ∧ c2 ≠ 0 ∧
      (∀ k v,
        lookupConfig
            (setField (stock_analyze (stock_analyze w s1 f1 r1).2 s2 f2 r2).2 c1 k v) c2 =
          lookupConfig (stock_analyze (stock_analyze w s1 f1 r1).2 s2 f2 r2).2 c2 ∧
        lookupConfig
            (setField (stock_analyze (stock_analyze w s1 f1 r1).2 s2 f2 r2).2 c1 k v) 0 =
          lookupConfig (stock_analyze (stock_analyze w s1 f1 r1).2 s2 f2 r2).2 0 ∧
        lookupConfig
            (setField (stock_analyze (stock_analyze w s1 f1 r1).2 s2 f2 r2).2 c2 k v) c1 =
          lookupConfig (stock_analyze (stock_analyze w s1 f1 r1).2 s2 f2 r2).2 c1 ∧
        lookupConfig
            (setField (stock_analyze (stock_analyze w s1 f1 r1).2 s2 f2 r2).2 c2 k v) 0 =
          lookupConfig (stock_analyze (stock_analyze w s1 f1 r1).2 s2 f2 r2).2 0) := by
  refine ⟨w.nextId, w.nextId + 1, stockFollowup s1 r1, stockFollowup s2 r2,
    rfl, rfl, by omega, by omega, by omega, ?_⟩
  intro k v
  exact ⟨lookup_setField_ne _ w.nextId (w.nextId + 1) k v (by omega),
    lookup_setField_ne _ w.nextId 0 k v (by omega),
    lookup_setField_ne _ (w.nextId + 1) w.nextId k v (by omega),
    lookup_setField_ne _ (w.nextId + 1) 0 k v (by omega)⟩

/-- Witness for C1 at two concrete invocations from the initial world. -/
theorem stock_analyze_snapshot_isolation_witness :
    ∃ c1 c2 t1 t2,
      (stock_analyze initWorld "600519" false (Except.ok PyValue.pynone)).1 =
        Act.defer false :: Act.allocConfigAct c1 ::
          Act.callRunFullAnalysis c1 (stockAnalyzeArgs false) ["600519"] :: t1 ∧
      (stock_analyze (stock_analyze initWorld "600519" false (Except.ok PyValue.pynone)).2
          "000001" true (Except.ok PyValue.pynone)).1 =
        Act.defer false :: Act.allocConfigAct c2 ::
          Act.callRunFullAnalysis c2 (stockAnalyzeArgs true) ["000001"] :: t2 ∧
      c1 ≠ c2 ∧ c1 ≠ 0 ∧ c2 ≠ 0 ∧
      (∀ k v,
        lookupConfig
            (setField (stock_analyze (stock_analyze initWorld "600519" false
              (Except.ok PyValue.pynone)).2 "000001" true (Except.ok PyValue.pynone)).2
              c1 k v) c2 =
          lookupConfig (stock_analyze (stock_analyze initWorld "600519" false
            (Except.ok PyValue.pynone)).2 "000001" true (Except.ok PyValue.pynone)).2 c2 ∧
        lookupConfig
            (setField (stock_analyze (stock_analyze initWorld "600519" false
              (Except.ok PyValue.pynone)).2 "000001" true (Except.ok PyValue.pynone)).2
              c1 k v) 0 =
          lookupConfig (stock_analyze (stock_analyze initWorld "600519" false
            (Except.ok PyValue.pynone)).2 "000001" true (Except.ok PyValue.pynone)).2 0 ∧
        lookupConfig
            (setField (stock_analyze (stock_analyze initWorld "600519" false
              (Except.ok PyValue.pynone)).2 "000001" true (Except.ok PyValue.pynone)).2
              c2 k v) c1 =
          lookupConfig (stock_analyze (stock_analyze initWorld "600519" false
            (Except.ok PyValue.pynone)).2 "000001" true (Except.ok PyValue.pynone)).2 c1 ∧
        lookupConfig
            (setField (stock_analyze (stock_analyze initWorld "600519" false
              (Except.ok PyValue.pynone)).2 "000001" true (Except.ok PyValue.pynone)).2
              c2 k v) 0 =
          lookupConfig (stock_analyze (stock_analyze initWorld "600519" false
            (Except.ok PyValue.pynone)).2 "000001" true (Except.ok PyValue.pynone)).2 0) :=
  stock_analyze_snapshot_isolation initWorld "600519" "000001" false true
    (Except.ok PyValue.pynone) (Except.ok PyValue.pynone) (by decide)

/-- Claim C2: every collaborator exception in `stock_analyze` or
`market_review` is caught inside the handler and converted into exactly
one failure follow-up carrying the classified error text; the handler
returns normally (it is a total function in the model), and afterwards
any further command still dispatches and runs its handler. -/
theorem collaborator_failures_nonfatal (w : World) (s : String) (f : Bool)
    (e e2 : PyExc) (c : Command) :
    (stock_analyze w s f (Except.error e)).1.countP isFollowup = 1 ∧
    (stock_analyze w s f (Except.error e)).1.getLast? =
      some (Act.followupSend (stockErrorText e) false) ∧
    (market_review w (Except.error e2)).1.countP isFollowup = 1 ∧
    (market_review w (Except.error e2)).1.getLast? =
      some (Act.followupSend ("❌ 大盘复盘过程中发生错误：" ++ pyExcMsg e2) false) ∧
    dispatch BotLifecycleState.ready (stock_analyze w s f (Except.error e)).2 c =
      Except.ok (runCommand (stock_analyze w s f (Except.error e)).2 c) := by
  refine ⟨?_, ?_, ?_, rfl, rfl⟩
  · cases e <;> simp [stock_analyze, stockFollowup, isFollowup, isDefer,
      isAllocConfig, isCallRunFullAnalysis]
  · cases e <;> rfl
  · simp [market_review, reviewFollowup, isFollowup]

/-- Claim C3 (counterexample): the `help` handler sends no deferred
acknowledgment and no follow-up at all — it answers with a single direct
response message — so the claim that every command (including `help` and
`about`) defers and then follows up is false. -/
theorem help_command_no_defer_no_followup :
    ¬ (help_command.countP isDefer = 1 ∧ help_command.countP isFollowup = 1) := by
  decide

/-- Claim C3 (amended): `stock_analyze` and `market_review` each send
exactly one deferred acknowledgment, as the first action, followed by
exactly one follow-up; `help` and `about` instead send exactly one direct
response message with no deferral and no follow-up. -/
theorem response_protocol (w : World) (s : String) (f : Bool)
    (r rr : Except PyExc PyValue) :
    (stock_analyze w s f r).1.countP isDefer = 1 ∧
    (stock_analyze w s f r).1.countP isFollowup = 1 ∧
    (stock_analyze w s f r).1.head? = some (Act.defer false) ∧
    (market_review w rr).1.countP isDefer = 1 ∧
    (market_review w rr).1.countP isFollowup = 1 ∧
    (market_review w rr).1.head? = some (Act.defer false) ∧
    help_command.countP isDefer = 0 ∧
    help_command.countP isFollowup = 0 ∧
    help_command.countP isSendMessage = 1 ∧
    about_command.countP isDefer = 0 ∧
    about_command.countP isFollowup = 0 ∧
    about_command.countP isSendMessage = 1 := by
  obtain ⟨hd1, hf1⟩ := stockFollowup_counts s r
  obtain ⟨hd2, hf2⟩ := reviewFollowup_counts rr
  refine ⟨?_, ?_, rfl, ?_, ?_, rfl, by decide, by decide, by decide,
    by decide, by decide, by decide⟩
  · simp [stock_analyze, isDefer, hd1]
  · simp [stock_analyze, isFollowup, hf1]
  · simp [market_review, isDefer, hd2]
  · simp [market_review, isFollowup, hf2]

/-- Claim C4: `/stock_analyze 600519` with `full_report=false` defers,
constructs a fresh snapshot, invokes the executor with `["600519"]` and
`no_market_review=true`, and on success sends exactly the confirmed
follow-up text; in general `no_market_review` is the negation of
`full_report`. -/
theorem scenario_stock_analyze_600519 (w : World) (v : PyValue) (f : Bool) :
    (stock_analyze w "600519" false (Except.ok v)).1 =
      [Act.defer false, Act.allocConfigAct w.nextId,
       Act.callRunFullAnalysis w.nextId (stockAnalyzeArgs false) ["600519"],
       Act.followupSend "✅ 股票分析完成！600519 的分析报告已生成。" false] ∧
    (stockAnalyzeArgs false).no_market_review = true ∧
    (stockAnalyzeArgs f).no_market_review = !f := by
  exact ⟨rfl, rfl, rfl⟩

/-- Claim C5: when the review collaborator returns a falsy value without
raising, `market_review` sends exactly the follow-up "❌ 大盘复盘失败！"
and terminates normally with that single follow-up as its last action. -/
theorem market_review_false_result (w : World) (v : PyValue)
    (h : truthy v = false) :
    (market_review w (Except.ok v)).1 =
      [Act.defer false, Act.allocNotifierAct w.nextId,
       Act.callRunMarketReview w.nextId Option.none Option.none,
       Act.followupSend "❌ 大盘复盘失败！" false] := by
  simp [market_review, reviewFollowup, h, allocNotifier]

/-- Witness for C5: the collaborator returning Python `False` from the
initial world. -/
theorem market_review_false_result_witness :
    truthy (PyValue.pybool false) = false ∧
    (market_review initWorld (Except.ok (PyValue.pybool false))).1 =
      [Act.defer false, Act.allocNotifierAct 1,
       Act.callRunMarketReview 1 Option.none Option.none,
       Act.followupSend "❌ 大盘复盘失败！" false] :=
  ⟨rfl, market_review_false_result initWorld (PyValue.pybool false) rfl⟩

/-- Claim C6 (counterexample): a concrete successful `market_review`
invocation constructs no configuration snapshot anywhere in its trace —
the collaborator is called with only the fresh notifier and two absent
overrides — refuting the conjunct that the call is made "with a fresh
configuration snapshot". -/
theorem market_review_no_config_snapshot :
    (market_review initWorld (Except.ok (PyValue.pybool true))).1.countP
        isAllocConfig = 0 ∧
    (market_review initWorld (Except.ok (PyValue.pybool true))).1 =
      [Act.defer false, Act.allocNotifierAct 1,
       Act.callRunMarketReview 1 Option.none Option.none,
       Act.followupSend "✅ 大盘复盘完成！报告已生成。" false] := by
  decide

/-- Claim C6 (amended): every `market_review` invocation calls the
review collaborator with a freshly constructed notifier (allocated by
this very invocation, immediately before the call), no symbol, and
absent analyzer and search-service overrides; no configuration snapshot
is constructed or passed anywhere in the invocation. -/
theorem market_review_collaborator_call (w : World) (r : Except PyExc PyValue) :
    ∃ t,
      (market_review w r).1 =
        Act.defer false :: Act.allocNotifierAct w.nextId ::
          Act.callRunMarketReview w.nextId Option.none Option.none :: t ∧
      (market_review w r).1.countP isAllocConfig = 0 := by
  refine ⟨reviewFollowup r, rfl, ?_⟩
  rcases r with e | v
  · simp [market_review, reviewFollowup, isAllocConfig]
  · cases hv : truthy v <;>
      simp [market_review, reviewFollowup, hv, isAllocConfig]

/-- Claim C7 (counterexample): the empty string is an invalid symbol,
yet `stock_analyze` invokes `run_full_analysis` with it — there is no
validation step and no `InvalidSymbol` short-circuit. -/
theorem empty_symbol_invokes_executor :
    Act.callRunFullAnalysis 1 (stockAnalyzeArgs false) [""] ∈
      (stock_analyze initWorld "" false (Except.ok PyValue.pynone)).1 ∧
    (stock_analyze initWorld "" false (Except.ok PyValue.pynone)).1.countP
      isCallRunFullAnalysis = 1 := by
  decide

/-- Claim C7 (amended): `stock_analyze` performs no symbol validation:
every invocation, for every symbol including the empty string, makes
exactly one `run_full_analysis` call carrying that symbol; an invalid
symbol surfaces only if the collaborator itself raises `ValueError`,
which the handler reports as a stock-code-error follow-up. -/
theorem no_symbol_validation (w : World) (s m : String) (f : Bool)
    (r : Except PyExc PyValue) :
    (stock_analyze w s f r).1.countP isCallRunFullAnalysis = 1 ∧
    Act.callRunFullAnalysis w.nextId (stockAnalyzeArgs f) [s] ∈
      (stock_analyze w s f r).1 ∧
    (stock_analyze w s f (Except.error (PyExc.valueError m))).1.getLast? =
      some (Act.followupSend ("❌ 股票代码错误：" ++ m) false) := by
  refine ⟨?_, ?_, rfl⟩
  · rcases r with e | v
    · cases e <;> simp [stock_analyze, stockFollowup, isCallRunFullAnalysis]
    · simp [stock_analyze, stockFollowup, isCallRunFullAnalysis]
  · exact List.mem_cons_of_mem _ (List.mem_cons_of_mem _ (List.mem_cons_self _ _))

/-- Claim C8: a command received in any lifecycle state other than
`Ready` (such as `SyncingCommands`) is rejected with `NotReady` and
performs zero job-executor invocations; in `Ready` the registered
handler is dispatched. -/
theorem commands_rejected_before_ready (st : BotLifecycleState) (w : World)
    (c : Command) (h : st ≠ BotLifecycleState.ready) :
    dispatch st w c = Except.error DispatchError.notReady ∧
    executorCallsOf (dispatch st w c) = 0 ∧
    dispatch BotLifecycleState.ready w c = Except.ok (runCommand w c) := by
  have ha : acceptsDispatch st = false := by
    cases st
    · rfl
    · rfl
    · exact absurd rfl h
    · rfl
  refine ⟨?_, ?_, rfl⟩
  · simp [dispatch, ha]
  · simp [dispatch, ha, executorCallsOf]

/-- Witness for C8: a `help` command arriving during `SyncingCommands`. -/
theorem commands_rejected_before_ready_witness :
    dispatch BotLifecycleState.syncingCommands initWorld Command.helpCmd =
      Except.error DispatchError.notReady ∧
    executorCallsOf
      (dispatch BotLifecycleState.syncingCommands initWorld Command.helpCmd) = 0 ∧
    dispatch BotLifecycleState.ready initWorld Command.helpCmd =
      Except.ok (runCommand initWorld Command.helpCmd) :=
  commands_rejected_before_ready BotLifecycleState.syncingCommands initWorld
    Command.helpCmd (by decide)

/-- Claim C9: when `run_full_analysis` returns without raising, the
handler's behaviour is literally independent of the returned value — the
whole run is equal to the run on a `None` result — and the success
follow-up is always the last action, even for falsy returns. -/
theorem success_followup_ignores_result (w : World) (s : String) (f : Bool)
    (v : PyValue) :
    stock_analyze w s f (Except.ok v) = stock_analyze w s f (Except.ok PyValue.pynone) ∧
    (stock_analyze w s f (Except.ok v)).1.getLast? =
      some (Act.followupSend ("✅ 股票分析完成！" ++ s ++ " 的分析报告已生成。") false) := by
  exact ⟨rfl, rfl⟩

/-- Claim C10: the argument descriptor passed to `run_full_analysis` has
every field fixed independently of user input, except `no_market_review`
which is the negation of `full_report`; and the call in every
`stock_analyze` trace carries exactly this descriptor. -/
theorem args_descriptor_fixed_fields (w : World) (s : String) (f : Bool)
    (r : Except PyExc PyValue) :
    (stockAnalyzeArgs f).debug = true ∧
    (stockAnalyzeArgs f).dry_run = false ∧
    (stockAnalyzeArgs f).no_notify = false ∧
    (stockAnalyzeArgs f).single_notify = false ∧
    (stockAnalyzeArgs f).workers = Option.none ∧
    (stockAnalyzeArgs f).schedule = false ∧
    (stockAnalyzeArgs f).market_review = false ∧
    (stockAnalyzeArgs f).webui = false ∧
    (stockAnalyzeArgs f).webui_only = false ∧
    (stockAnalyzeArgs f).stocks = Option.none ∧
    (stockAnalyzeArgs f).no_market_review = !f ∧
    Act.callRunFullAnalysis w.nextId (stockAnalyzeArgs f) [s] ∈
      (stock_analyze w s f r).1 := by
  refine ⟨rfl, rfl, rfl, rfl, rfl, rfl, rfl, rfl, rfl, rfl, rfl, ?_⟩
  exact List.mem_cons_of_mem _ (List.mem_cons_of_mem _ (List.mem_cons_self _ _))
